import Mathlib

/-!
Verification of the live packet-capture and analysis pipeline of
`src/backend/app.py` (a FastAPI network diagnostics backend).

The Python module keeps its capture state in module-level globals
(`capture_packets`, `capture_raw_packets`, `is_capturing`,
`stop_capture_flag`, `capture_sniffer`, `capture_session_id`; app.py
lines 52-58).  The per-frame scapy callback `packet_callback`
(lines 236-336) classifies one decoded frame into a `packet_info`
dictionary, appends it to the bounded capture log, and returns the
sniffer's stop indication.  The HTTP handlers `start_capture`
(lines 983-1016), `get_capture_statistics` (lines 1065-1225) and the
worker `capture_packets_thread` (lines 493-537), plus the analyzers
`detect_anomalies` (lines 1227-1336) and `analyze_suspicious_ips`
(lines 1338-1430), are embedded below as pure functions over explicit
state.

Modelling conventions:
* Python dicts built by repeated `d[k] = d.get(k, 0) + 1` are
  insertion-ordered association lists (`bump` below), matching CPython's
  insertion-ordered dicts.
* `datetime.now().isoformat()` timestamps are modelled as rational
  instants (`Rat`): the ISO-8601 rendering round-trips through
  `fromisoformat`, so the instant itself is the faithful value.
* Python `sorted(key=..., reverse=True)` is the stable descending sort
  `pySortDesc` below (insertion after equal keys, exactly CPython's
  stable sort under a reversed comparison).
* Fields of `packet_info` that no analyzed property reads
  (`explanation`, `http_data`, `dns_query`, `dns_answer`,
  `payload_length`) and the display-only `description` /
  `recommendation` strings of findings are omitted from the embedding.
-/

namespace NetCapture

/-- TCP fields recorded by the capture callback (app.py 261-269). -/
structure TCPInfo where
  sport : Nat
  dport : Nat
  flags : String
  seq : Nat
  ack : Nat
  window : Nat
  deriving DecidableEq

/-- UDP fields recorded by the capture callback (app.py 283-288). -/
structure UDPInfo where
  sport : Nat
  dport : Nat
  len : Nat
  deriving DecidableEq

/-- ICMP fields recorded by the capture callback (app.py 303-307). -/
structure ICMPInfo where
  type : Nat
  code : Nat
  deriving DecidableEq

/-- ARP fields recorded by the capture callback (app.py 310-317). -/
structure ARPInfo where
  psrc : String
  pdst : String
  hwsrc : String
  hwdst : String
  op : Nat
  deriving DecidableEq

/-- IPv4 header fields recorded by the capture callback (app.py 252-259). -/
structure IPInfo where
  src : String
  dst : String
  protocol : Nat
  ttl : Nat
  version : Nat
  deriving DecidableEq

/-- One decoded frame as scapy hands it to `packet_callback`: which layers
are present (`TCP in packet` etc.), the wall-clock instant of processing
(`datetime.now()`), `len(packet)` and `packet.summary()`. -/
structure Frame where
  now : Rat
  len : Nat
  summary : String
  ip : Option IPInfo
  tcp : Option TCPInfo
  udp : Option UDPInfo
  icmp : Option ICMPInfo
  arp : Option ARPInfo
  deriving DecidableEq

/-- The `packet_info` dictionary built by `packet_callback`
(app.py 246-323).  Keys that are set only on some paths are `Option`s. -/
structure PacketInfo where
  timestamp : Rat
  length : Nat
  summary : String
  ip : Option IPInfo
  tcp : Option TCPInfo
  udp : Option UDPInfo
  icmp : Option ICMPInfo
  arp : Option ARPInfo
  type : String
  importance : String
  deriving DecidableEq

/-- Model of `determine_packet_importance` (app.py 338-362): sequential early
returns keyed on the record's `type`, TCP destination port, TCP flags and
UDP destination port. -/
def determine_packet_importance (ptype : String) (tcp : Option TCPInfo)
    (udp : Option UDPInfo) : String :=
  let tcpDport : Nat := (tcp.map (fun t => t.dport)).getD 0
  let tcpFlags : String := (tcp.map (fun t => t.flags)).getD ""
  let udpDport : Nat := (udp.map (fun u => u.dport)).getD 0
  if ptype = "TCP" ∧ tcpDport ∈ [22, 443, 80, 3389, 21] then "high"
  else if ptype = "TCP" ∧ (tcpFlags.contains 'R' ∨ tcpFlags.contains 'F') then "medium"
  else if ptype = "UDP" ∧ udpDport ∈ [53, 67, 68] then "medium"
  else if ptype = "ICMP" then "medium"
  else if ptype = "ARP" then "low"
  else "normal"

/-- The classification part of `packet_callback` (app.py 246-323): the
`ip` key is set independently of the transport chain; the transport keys
and `type` come from the `if TCP / elif UDP / elif ICMP / elif ARP / else`
chain, so at most one transport key is ever set. -/
def classify_packet (f : Frame) : PacketInfo :=
  let variants : Option TCPInfo × Option UDPInfo × Option ICMPInfo × Option ARPInfo × String :=
    match f.tcp, f.udp, f.icmp, f.arp with
    | some t, _, _, _ => (some t, none, none, none, "TCP")
    | none, some u, _, _ => (none, some u, none, none, "UDP")
    | none, none, some i, _ => (none, none, some i, none, "ICMP")
    | none, none, none, some a => (none, none, none, some a, "ARP")
    | none, none, none, none => (none, none, none, none, "Other")
  { timestamp := f.now
    length := f.len
    summary := f.summary
    ip := f.ip
    tcp := variants.1
    udp := variants.2.1
    icmp := variants.2.2.1
    arp := variants.2.2.2.1
    type := variants.2.2.2.2
    importance := determine_packet_importance variants.2.2.2.2 variants.1 variants.2.1 }

/-- How many transport variants of a record are populated. -/
def populatedVariants (r : PacketInfo) : Nat :=
  (if r.tcp.isSome then 1 else 0) + (if r.udp.isSome then 1 else 0) +
  (if r.icmp.isSome then 1 else 0) + (if r.arp.isSome then 1 else 0)

/-- The two shared capture buffers (app.py 52-53). -/
structure CaptureBuffers where
  capture_packets : List PacketInfo
  capture_raw_packets : List Frame
  deriving DecidableEq

/-- The capture-log append of `packet_callback` (app.py 325-328):
append, then `pop(0)` once when the length exceeds 1000. -/
def pushCap (log : List PacketInfo) (r : PacketInfo) : List PacketInfo :=
  if 1000 < (log ++ [r]).length then (log ++ [r]).tail else log ++ [r]

/-- One invocation of the scapy per-frame callback `packet_callback`
(app.py 236-336).  `stop_flag` is the global `stop_capture_flag` read at
entry (lines 240-241).  `frame_error` models a per-frame exception raised
during classification — after the raw append of line 244, before the log
append of line 325 — which the `except` of line 333 swallows (returning
`False`).  The returned `Bool` is the callback's stop indication: `True`
at line 241 (stop flag) or line 331 (log reached 1000 records). -/
def packet_callback (stop_flag frame_error : Bool) (bufs : CaptureBuffers)
    (f : Frame) : CaptureBuffers × Bool :=
  if stop_flag then (bufs, true)
  else
    let raw := bufs.capture_raw_packets ++ [f]
    if frame_error then ({ bufs with capture_raw_packets := raw }, false)
    else
      let log2 := pushCap bufs.capture_packets (classify_packet f)
      (⟨log2, raw⟩, decide (1000 ≤ log2.length))

/-- One callback invocation as seen from outside: the frame, whether the
global stop flag was set when the callback entered, and whether per-frame
processing raised (and was swallowed). -/
structure CallbackEvent where
  stop_flag : Bool
  frame_error : Bool
  frame : Frame
  deriving DecidableEq

/-- A whole capture: the callback runs once per sniffed frame, starting
from the cleared buffers of `start_capture` (app.py 1000-1001). -/
def runCapture (events : List CallbackEvent) : CaptureBuffers :=
  events.foldl (fun b e => (packet_callback e.stop_flag e.frame_error b e.frame).1) ⟨[], []⟩

/-- The records appended to the capture log over a capture, in capture
order: one classified record per frame that was neither skipped by the
stop flag nor lost to a swallowed per-frame exception. -/
def processedRecords (events : List CallbackEvent) : List PacketInfo :=
  (events.filter (fun e => !e.stop_flag && !e.frame_error)).map
    (fun e => classify_packet e.frame)

/-- The capacity-1000 suffix of a list: what FIFO eviction retains. -/
def tailCap (l : List PacketInfo) : List PacketInfo := l.drop (l.length - 1000)

/-- The module-level capture globals (app.py 52-58).  `capture_sniffer`
is the handle of the running `AsyncSniffer` (an opaque token here). -/
structure CaptureGlobals where
  is_capturing : Bool
  stop_capture_flag : Bool
  capture_sniffer : Option Nat
  capture_session_id : Option String
  bufs : CaptureBuffers
  deriving DecidableEq

/-- How the body of `capture_packets_thread` leaves its `try` block
(app.py 500-526): normal completion of the polling loop,
`KeyboardInterrupt`, or any other exception escaping the loop. -/
inductive WorkerOutcome
  | completed
  | interrupted
  | errored
  deriving DecidableEq

/-- The capture worker `capture_packets_thread` (app.py 493-537).  It
clears `stop_capture_flag` at entry (line 496); the `try` body — sniffer
creation and the polling loop, during which the callback mutates the
buffers — is modelled as an arbitrary evolution `body` of the globals
ending in `outcome`; both `except` arms (lines 523-526) only print; the
`finally` block (lines 527-537) stops and releases the sniffer handle and
resets `is_capturing` and `stop_capture_flag`. -/
def capture_packets_thread (g : CaptureGlobals)
    (body : CaptureGlobals → CaptureGlobals) (outcome : WorkerOutcome) :
    CaptureGlobals :=
  let g1 := { g with stop_capture_flag := false }
  let g2 :=
    match outcome with
    | .completed => body g1
    | .interrupted => body g1
    | .errored => body g1
  { g2 with capture_sniffer := none, is_capturing := false, stop_capture_flag := false }

/-- The JSON body of `POST /api/capture/start` as `start_capture` sees it
(app.py 986-992): a parse failure yields `data = {}`; a non-object body
keeps the defaults; an object carries optional `interface` and `count`. -/
inductive StartBody
  | invalid
  | nonDict
  | dict (interface : Option String) (count : Option Int)
  deriving DecidableEq

/-- The JSON object returned by `start_capture`: the `already_running`
branch (app.py 997) carries only `message` and `status`; the `started`
branch (app.py 1011-1016) adds `session_id` and `target_count`. -/
structure StartResponse where
  message : String
  status : String
  session_id : Option String
  target_count : Option Int
  deriving DecidableEq

/-- Result of one `start_capture` call: the globals afterwards, the JSON
response, and the arguments of the spawned worker thread (`none` when no
thread was spawned). -/
structure StartOutcome where
  globals : CaptureGlobals
  response : StartResponse
  spawned : Option (Option String × Int)
  deriving DecidableEq

/-- Handler of `POST /api/capture/start` (app.py 983-1016).  `new_id` is the
timestamp-derived session id `datetime.now().strftime('%Y%m%d_%H%M%S')`
of line 1002. -/
def start_capture (g : CaptureGlobals) (body : StartBody) (new_id : String) :
    StartOutcome :=
  let interface : Option String :=
    match body with
    | .dict i _ => i
    | _ => none
  let packet_count : Int :=
    match body with
    | .dict _ (some c) => c
    | .dict _ none => 100
    | .invalid => 100
    | .nonDict => 100
  if g.is_capturing then
    { globals := g
      response := { message := "すでにキャプチャが実行中です", status := "already_running"
                    session_id := none, target_count := none }
      spawned := none }
  else
    let g' := { g with
      bufs := ⟨[], []⟩
      capture_session_id := some new_id
      stop_capture_flag := false
      is_capturing := true }
    { globals := g'
      response := { message := "キャプチャを開始しました", status := "started"
                    session_id := some new_id, target_count := some packet_count }
      spawned := some (interface, packet_count) }

/-- A CPython counting dict `d[k] = d.get(k, 0) + 1` as an
insertion-ordered association list: an existing key keeps its position,
a new key is appended. -/
def bump {α : Type} [DecidableEq α] : List (α × Nat) → α → List (α × Nat)
  | [], k => [(k, 1)]
  | (k', v) :: rest, k =>
      if k' = k then (k', v + 1) :: rest else (k', v) :: bump rest k

/-- Python `d[k] = d.get(k, 0) + v` on the same representation. -/
def bumpBy {α : Type} [DecidableEq α] : List (α × Nat) → α → Nat → List (α × Nat)
  | [], k, v => [(k, v)]
  | (k', v') :: rest, k, v =>
      if k' = k then (k', v' + v) :: rest else (k', v') :: bumpBy rest k v

/-- Python `d.get(k, 0)` on the same representation. -/
def getCount {α : Type} [DecidableEq α] : List (α × Nat) → α → Nat
  | [], _ => 0
  | (k', v) :: rest, k => if k' = k then v else getCount rest k

/-- Insertion step of CPython's stable sort under `reverse=True`: the new
element goes after every element whose key is at least as large, so equal
keys keep their original relative order. -/
def pyInsertDesc {α : Type} (key : α → Nat) (x : α) : List α → List α
  | [] => [x]
  | y :: ys => if key y < key x then x :: y :: ys else y :: pyInsertDesc key x ys

/-- Python `sorted(l, key=key, reverse=True)`: a stable sort by `key`
descending. -/
def pySortDesc {α : Type} (key : α → Nat) (l : List α) : List α :=
  l.foldl (fun acc x => pyInsertDesc key x acc) []

/-- Protocol distribution of `get_capture_statistics` (app.py 1085-1088):
count per record `type`. -/
def protocol_counts_of (packets : List PacketInfo) : List (String × Nat) :=
  packets.foldl (fun m p => bump m p.type) []

/-- One iteration of the port tally of `get_capture_statistics`
(app.py 1092-1106): for a record with a `tcp` key — `elif`: otherwise
with a `udp` key — bump its source port then its destination port, each
only when truthy (a port 0 is skipped by `if sport:` / `if dport:`). -/
def portStep (m : List (Nat × Nat)) (p : PacketInfo) : List (Nat × Nat) :=
  match p.tcp with
  | some t =>
      let m1 := if t.sport ≠ 0 then bump m t.sport else m
      if t.dport ≠ 0 then bump m1 t.dport else m1
  | none =>
    match p.udp with
    | some u =>
        let m1 := if u.sport ≠ 0 then bump m u.sport else m
        if u.dport ≠ 0 then bump m1 u.dport else m1
    | none => m

/-- Port tally of `get_capture_statistics` (app.py 1091-1106). -/
def port_counts_of (packets : List PacketInfo) : List (Nat × Nat) :=
  packets.foldl portStep []

/-- The `top_ports` list (app.py 1108): top 20 ports by count descending, Python's
stable sort breaking ties by dict insertion order. -/
def top_ports_of (packets : List PacketInfo) : List (Nat × Nat) :=
  (pySortDesc (fun e => e.2) (port_counts_of packets)).take 20

/-- Source-IP frequencies (app.py 1111-1118): bump `ip.src` when truthy. -/
def src_ips_of (packets : List PacketInfo) : List (String × Nat) :=
  packets.foldl (fun m p =>
    match p.ip with
    | some i => if i.src ≠ "" then bump m i.src else m
    | none => m) []

/-- Destination-IP frequencies (app.py 1111-1120): bump `ip.dst` when
truthy. -/
def dst_ips_of (packets : List PacketInfo) : List (String × Nat) :=
  packets.foldl (fun m p =>
    match p.ip with
    | some i => if i.dst ≠ "" then bump m i.dst else m
    | none => m) []

/-- The `packet_size_stats` object with its `size_distribution` (app.py 1122-1149). -/
structure SizeStatsR where
  min : Nat
  max : Nat
  average : Rat
  total_bytes : Nat
  size_distribution : List (String × Nat)
  deriving DecidableEq

/-- app.py 1122-1149: min/max/average/total of the record lengths and the
five-bucket histogram of the `elif` chain. -/
def packet_size_stats_of (packets : List PacketInfo) : SizeStatsR :=
  let sizes := packets.map (fun p => p.length)
  { min := match sizes with | [] => 0 | h :: t => t.foldl Nat.min h
    max := match sizes with | [] => 0 | h :: t => t.foldl Nat.max h
    average := if sizes.length = 0 then 0 else (sizes.sum : Rat) / (sizes.length : Rat)
    total_bytes := sizes.sum
    size_distribution :=
      [("0-100", (sizes.countP (fun s => decide (s ≤ 100))))
      , ("101-500", (sizes.countP (fun s => decide (100 < s ∧ s ≤ 500))))
      , ("501-1000", (sizes.countP (fun s => decide (500 < s ∧ s ≤ 1000))))
      , ("1001-1500", (sizes.countP (fun s => decide (1000 < s ∧ s ≤ 1500))))
      , ("1501+", (sizes.countP (fun s => decide (1500 < s))))] }

/-- The `time_analysis` object (app.py 1151-1161, 1214-1219).  Timestamps are the
rational instants of the records (every Python record carries a truthy
ISO string, so the comprehension filter drops nothing). -/
structure TimeAnalysis where
  duration_seconds : Rat
  packets_per_second : Rat
  start_time : Option Rat
  end_time : Option Rat
  deriving DecidableEq

/-- app.py 1151-1161: duration is last minus first timestamp when at
least two are present, else 0; the rate divides only a positive
duration. -/
def time_analysis_of (packets : List PacketInfo) : TimeAnalysis :=
  let timestamps := packets.map (fun p => p.timestamp)
  if 1 < timestamps.length then
    let duration := timestamps.getLastD 0 - timestamps.headD 0
    { duration_seconds := duration
      packets_per_second :=
        if 0 < duration then (packets.length : Rat) / duration else 0
      start_time := timestamps.head?
      end_time := timestamps.getLast? }
  else
    { duration_seconds := 0, packets_per_second := 0
      start_time := timestamps.head?, end_time := timestamps.getLast? }

/-- One entry of `top_talkers` (app.py 1163-1174). -/
structure TopTalker where
  ip : String
  bytes : Nat
  packets : Nat
  deriving DecidableEq

/-- app.py 1163-1174: per source IP, total bytes; top 10 by bytes
descending, annotated with that IP's packet count. -/
def top_talkers_of (packets : List PacketInfo)
    (src_ips : List (String × Nat)) : List TopTalker :=
  let ip_bytes := packets.foldl (fun m p =>
    match p.ip with
    | some i => if i.src ≠ "" then bumpBy m i.src p.length else m
    | none => m) []
  ((pySortDesc (fun e => e.2) ip_bytes).take 10).map
    (fun e => ⟨e.1, e.2, getCount src_ips e.1⟩)

/-- The `security_analysis` object (app.py 1176-1185). -/
structure SecurityInfoR where
  encrypted_packets : Nat
  unencrypted_packets : Nat
  high_importance : Nat
  medium_importance : Nat
  low_importance : Nat
  deriving DecidableEq

/-- app.py 1176-1185: counts over TCP destination ports and record
importance. -/
def security_analysis_of (packets : List PacketInfo) : SecurityInfoR :=
  { encrypted_packets := packets.countP (fun p =>
      match p.tcp with
      | some t => decide (t.dport ∈ [443, 22, 993, 995])
      | none => false)
    unencrypted_packets := packets.countP (fun p =>
      match p.tcp with
      | some t => decide (t.dport ∈ [80, 21, 23, 110])
      | none => false)
    high_importance := packets.countP (fun p => decide (p.importance = "high"))
    medium_importance := packets.countP (fun p => decide (p.importance = "medium"))
    low_importance := packets.countP (fun p => decide (p.importance = "low")) }

/-- TCP flag distribution (app.py 1187-1192): frequency of the raw flag
string over records with a `tcp` key. -/
def tcp_flags_of (packets : List PacketInfo) : List (String × Nat) :=
  packets.foldl (fun m p =>
    match p.tcp with
    | some t => bump m t.flags
    | none => m) []

/-- A `port_scanning` finding of `detect_anomalies` (app.py 1249-1256). -/
structure PortScanFinding where
  ip : String
  ports_accessed : Nat
  severity : String
  deriving DecidableEq

/-- A `syn_flood` finding of `detect_anomalies` (app.py 1266-1273). -/
structure SynFloodFinding where
  ip : String
  syn_count : Nat
  severity : String
  deriving DecidableEq

/-- An `unusual_ports` finding of `detect_anomalies` (app.py 1284-1291). -/
structure UnusualPortFinding where
  port : Nat
  count : Nat
  severity : String
  deriving DecidableEq

/-- A `high_traffic_ips` finding of `detect_anomalies` (app.py 1293-1302). -/
structure HighTrafficFinding where
  ip : String
  packet_count : Nat
  severity : String
  deriving DecidableEq

/-- A `failed_connections` finding of `detect_anomalies` (app.py 1304-1319). -/
structure FailedConnFinding where
  ip : String
  rst_count : Nat
  severity : String
  deriving DecidableEq

/-- A synthesized warning of `detect_anomalies` (app.py 1321-1334). -/
structure WarningEntry where
  level : String
  message : String
  deriving DecidableEq

/-- The dictionary returned by `detect_anomalies` (app.py 1229-1236). -/
structure Anomalies where
  port_scanning : List PortScanFinding
  syn_flood : List SynFloodFinding
  unusual_ports : List UnusualPortFinding
  high_traffic_ips : List HighTrafficFinding
  failed_connections : List FailedConnFinding
  warnings : List WarningEntry
  deriving DecidableEq

/-- Python `set.add` on the determinized set representation used here:
a list without duplicates, keeping first-insertion order. -/
def addIfAbsent {α : Type} [DecidableEq α] (l : List α) (x : α) : List α :=
  if x ∈ l then l else l ++ [x]

/-- Step `ip_port_map[src].add(dport)` of `detect_anomalies` (app.py 1239-1247). -/
def addPort (m : List (String × List Nat)) (src : String) (dport : Nat) :
    List (String × List Nat) :=
  match m with
  | [] => [(src, [dport])]
  | (k, ps) :: rest =>
      if k = src then (k, addIfAbsent ps dport) :: rest
      else (k, ps) :: addPort rest src dport

/-- The `ip_port_map` of `detect_anomalies` (app.py 1239-1247): per
truthy source IP, the set of truthy TCP destination ports it contacted. -/
def ip_port_map_of (packets : List PacketInfo) : List (String × List Nat) :=
  packets.foldl (fun m p =>
    match p.ip, p.tcp with
    | some i, some t =>
        if i.src ≠ "" ∧ t.dport ≠ 0 then addPort m i.src t.dport else m
    | _, _ => m) []

/-- The `syn_counts` dict of `detect_anomalies` (app.py 1259-1264): per
truthy source IP, how many packets carry the TCP flag string exactly
`"S"`. -/
def syn_counts_of (packets : List PacketInfo) : List (String × Nat) :=
  packets.foldl (fun m p =>
    match p.tcp with
    | some t =>
        if t.flags = "S" then
          match p.ip with
          | some i => if i.src ≠ "" then bump m i.src else m
          | none => m
        else m
    | none => m) []

/-- The `rst_counts` dict of `detect_anomalies` (app.py 1305-1310): per
truthy source IP, how many packets carry an `R` in their TCP flags. -/
def rst_counts_of (packets : List PacketInfo) : List (String × Nat) :=
  packets.foldl (fun m p =>
    match p.tcp with
    | some t =>
        if t.flags.contains 'R' then
          match p.ip with
          | some i => if i.src ≠ "" then bump m i.src else m
          | none => m
        else m
    | none => m) []

/-- Model of `detect_anomalies` (app.py 1227-1336).  `src_ips`, `dst_ips` and
`port_counts` are the frequency maps computed by
`get_capture_statistics` and passed in at line 1195 (`dst_ips` is
accepted but never read, as in the source). -/
def detect_anomalies (packets : List PacketInfo)
    (src_ips : List (String × Nat)) (dst_ips : List (String × Nat))
    (port_counts : List (Nat × Nat)) : Anomalies :=
  let _ := dst_ips
  let port_scanning := (ip_port_map_of packets).filterMap (fun e =>
    if 20 < e.2.length then
      some (⟨e.1, e.2.length, "high"⟩ : PortScanFinding)
    else none)
  let syn_flood := (syn_counts_of packets).filterMap (fun e =>
    if 50 < e.2 then some (⟨e.1, e.2, "high"⟩ : SynFloodFinding) else none)
  let suspicious_ports : List Nat :=
    [1337, 31337, 4444, 5555, 6667, 6668, 6669, 12345, 54321, 1234, 3127, 3128, 8080]
  let unusual_ports := port_counts.filterMap (fun e =>
    if e.1 ∈ suspicious_ports then
      some (⟨e.1, e.2, "medium"⟩ : UnusualPortFinding)
    else none)
  let avg_packets : Rat :=
    if src_ips = [] then 0
    else ((src_ips.map (fun e => e.2)).sum : Rat) / (src_ips.length : Rat)
  let high_traffic_ips := src_ips.filterMap (fun e =>
    if avg_packets * 10 < (e.2 : Rat) then
      some (⟨e.1, e.2, "medium"⟩ : HighTrafficFinding)
    else none)
  let failed_connections := (rst_counts_of packets).filterMap (fun e =>
    if 10 < e.2 then some (⟨e.1, e.2, "low"⟩ : FailedConnFinding) else none)
  let total_anomalies := port_scanning.length + syn_flood.length +
    unusual_ports.length + high_traffic_ips.length
  let warnings : List WarningEntry :=
    if 0 < total_anomalies then
      [⟨"warning", toString total_anomalies ++ "件の異常な通信パターンを検出しました"⟩]
    else []
  ⟨port_scanning, syn_flood, unusual_ports, high_traffic_ips,
   failed_connections, warnings⟩

/-- Python `str.startswith` on the character sequences: `pre` is an
initial segment of `s`.  (Structural recursion, so concrete instances
evaluate inside the kernel.) -/
def charsStartWith : List Char → List Char → Bool
  | [], _ => true
  | _ :: _, [] => false
  | c :: cs, d :: ds => c == d && charsStartWith cs ds

/-- Python `s.startswith(pre)`. -/
def pyStartsWith (s pre : String) : Bool :=
  charsStartWith pre.data s.data

/-- The `is_private` test of `analyze_suspicious_ips` (app.py 1366-1378). -/
def isPrivateIP (ip : String) : Bool :=
  pyStartsWith ip "10." ||
  pyStartsWith ip "172.16." || pyStartsWith ip "172.17." ||
  pyStartsWith ip "172.18." || pyStartsWith ip "172.19." ||
  pyStartsWith ip "172.20." || pyStartsWith ip "172.21." ||
  pyStartsWith ip "172.22." || pyStartsWith ip "172.23." ||
  pyStartsWith ip "172.24." || pyStartsWith ip "172.25." ||
  pyStartsWith ip "172.26." || pyStartsWith ip "172.27." ||
  pyStartsWith ip "172.28." || pyStartsWith ip "172.29." ||
  pyStartsWith ip "172.30." || pyStartsWith ip "172.31." ||
  pyStartsWith ip "192.168." ||
  pyStartsWith ip "127."

/-- The `all_ips` set of `analyze_suspicious_ips` (app.py 1351-1359): every
truthy src or dst address.  The Python `set`'s unspecified iteration
order is determinized to first-insertion order; every property proved
below is order-independent. -/
def all_ips_of (packets : List PacketInfo) : List String :=
  packets.foldl (fun acc p =>
    match p.ip with
    | some i =>
        let acc1 := if i.src ≠ "" then addIfAbsent acc i.src else acc
        if i.dst ≠ "" then addIfAbsent acc1 i.dst else acc1
    | none => acc) []

/-- The suspicious-port probe of `analyze_suspicious_ips`
(app.py 1396-1404): the first packet with this IP as TCP source hitting
one of the five listed ports (the loop breaks at the first match). -/
def suspPortOf (packets : List PacketInfo) (ip : String) : Option Nat :=
  (packets.find? (fun p =>
    match p.ip, p.tcp with
    | some i, some t =>
        decide (i.src = ip) && decide (t.dport ∈ [1337, 31337, 4444, 5555, 6667])
    | _, _ => false)).bind (fun p => p.tcp.map (fun t => t.dport))

/-- The RST tally of `analyze_suspicious_ips` (app.py 1406-1409): packets
with this IP as source whose truthy TCP flag string contains `R`. -/
def rstCountOf (packets : List PacketInfo) (ip : String) : Nat :=
  packets.countP (fun p =>
    match p.ip, p.tcp with
    | some i, some t =>
        decide (i.src = ip) && decide (t.flags ≠ "") && t.flags.contains 'R'
    | _, _ => false)

/-- The per-IP suspicion score and reasons of `analyze_suspicious_ips`
(app.py 1361-1412): the four independently triggered signals, summed. -/
def scoreIP (packets : List PacketInfo) (src_ips : List (String × Nat))
    (ip : String) : Nat × List String :=
  let c1 : Nat × List String :=
    if ¬ isPrivateIP ip ∧ 50 < getCount src_ips ip then
      (3, ["外部IPからの高トラフィック"])
    else (0, [])
  let c2 : Nat × List String :=
    if pyStartsWith ip "0." then (5, ["無効なIPアドレス範囲"])
    else if pyStartsWith ip "169.254." then (2, ["APIPA自動割り当てアドレス"])
    else if pyStartsWith ip "224." || pyStartsWith ip "239." then
      (1, ["マルチキャストアドレス"])
    else (0, [])
  let c3 : Nat × List String :=
    match suspPortOf packets ip with
    | some d => (4, ["不審なポート" ++ toString d ++ "への接続"])
    | none => (0, [])
  let rst := rstCountOf packets ip
  let c4 : Nat × List String :=
    if 15 < rst then (2, [toString rst ++ "回の接続失敗"]) else (0, [])
  (c1.1 + c2.1 + c3.1 + c4.1, c1.2 ++ c2.2 ++ c3.2 ++ c4.2)

/-- One entry of the `suspicious_ips` list (app.py 1414-1425). -/
structure SuspiciousEntry where
  ip : String
  suspicion_score : Nat
  severity : String
  reasons : List String
  packet_count : Nat
  is_private : Bool
  deriving DecidableEq

/-- Model of `analyze_suspicious_ips` (app.py 1338-1430): score every observed
IP, keep scores of at least 3 with the severity ladder of line 1416,
sort by score descending (Python's stable sort) and truncate to 20. -/
def analyze_suspicious_ips (packets : List PacketInfo)
    (src_ips dst_ips : List (String × Nat)) : List SuspiciousEntry :=
  let entries := (all_ips_of packets).filterMap (fun ip =>
    let sc := scoreIP packets src_ips ip
    if 3 ≤ sc.1 then
      some { ip := ip
             suspicion_score := sc.1
             severity :=
               if 7 ≤ sc.1 then "high" else if 5 ≤ sc.1 then "medium" else "low"
             reasons := sc.2
             packet_count := getCount src_ips ip + getCount dst_ips ip
             is_private := isPrivateIP ip }
    else none)
  (pySortDesc (fun e => e.suspicion_score) entries).take 20

/-- The `ip_statistics` object (app.py 1204-1209). -/
structure IPStatsR where
  unique_src_ips : Nat
  unique_dst_ips : Nat
  top_src_ips : List (String × Nat)
  top_dst_ips : List (String × Nat)
  deriving DecidableEq

/-- The JSON object returned by `GET /api/capture/statistics`
(app.py 1070-1082 for the empty log, 1198-1225 otherwise).  The empty
branch returns `{}`/`[]`/0 for every field; each populated sub-object of
the non-empty branch is an `Option` set to `some`. -/
structure Statistics where
  total_packets : Nat
  protocol_distribution : List (String × Nat)
  port_distribution : Option (List (Nat × Nat))
  ip_statistics : Option IPStatsR
  packet_size_stats : Option SizeStatsR
  time_analysis : Option TimeAnalysis
  top_talkers : List TopTalker
  security_analysis : Option SecurityInfoR
  tcp_flags : List (String × Nat)
  anomaly_detection : Option Anomalies
  suspicious_ips : List SuspiciousEntry
  deriving DecidableEq

/-- Handler of `GET /api/capture/statistics` (app.py 1065-1225) as a pure function
of the capture-log snapshot. -/
def get_capture_statistics (packets : List PacketInfo) : Statistics :=
  if packets = [] then
    { total_packets := 0
      protocol_distribution := []
      port_distribution := none
      ip_statistics := none
      packet_size_stats := none
      time_analysis := none
      top_talkers := []
      security_analysis := none
      tcp_flags := []
      anomaly_detection := none
      suspicious_ips := [] }
  else
    let src_ips := src_ips_of packets
    let dst_ips := dst_ips_of packets
    let port_counts := port_counts_of packets
    { total_packets := packets.length
      protocol_distribution := protocol_counts_of packets
      port_distribution := some (top_ports_of packets)
      ip_statistics := some
        { unique_src_ips := src_ips.length
          unique_dst_ips := dst_ips.length
          top_src_ips := (pySortDesc (fun e => e.2) src_ips).take 10
          top_dst_ips := (pySortDesc (fun e => e.2) dst_ips).take 10 }
      packet_size_stats := some (packet_size_stats_of packets)
      time_analysis := some (time_analysis_of packets)
      top_talkers := top_talkers_of packets src_ips
      security_analysis := some (security_analysis_of packets)
      tcp_flags := tcp_flags_of packets
      anomaly_detection := some (detect_anomalies packets src_ips dst_ips port_counts)
      suspicious_ips := analyze_suspicious_ips packets src_ips dst_ips }

/-- The keys of a counting dict in first-occurrence order: what iterating
a CPython dict built by bumping yields. -/
def dedupKeepFirst {α : Type} [DecidableEq α] (l : List α) : List α :=
  l.foldl addIfAbsent []

theorem getCount_bump_self {α : Type} [DecidableEq α]
    (m : List (α × Nat)) (k : α) : getCount (bump m k) k = getCount m k + 1 := by
  induction m with
  | nil => simp [bump, getCount]
  | cons e rest ih =>
    obtain ⟨k', v⟩ := e
    by_cases h : k' = k <;> simp [bump, getCount, h, ih]

theorem getCount_bump_ne {α : Type} [DecidableEq α]
    (m : List (α × Nat)) (k k' : α) (h : k ≠ k') :
    getCount (bump m k) k' = getCount m k' := by
  have h' : k' ≠ k := fun hk => h hk.symm
  induction m with
  | nil => simp [bump, getCount, h, h']
  | cons e rest ih =>
    obtain ⟨a, v⟩ := e
    by_cases ha : a = k
    · subst ha
      simp [bump, getCount, h, h']
    · by_cases ha' : a = k' <;> simp [bump, getCount, h, h', ha, ha', ih]

theorem getCount_foldl_bump {α : Type} [DecidableEq α]
    (l : List α) (m : List (α × Nat)) (k : α) :
    getCount (l.foldl bump m) k
      = getCount m k + l.countP (fun x => decide (x = k)) := by
  induction l generalizing m with
  | nil => simp
  | cons x xs ih =>
    simp only [List.foldl_cons, ih, List.countP_cons]
    by_cases h : x = k
    · subst h
      rw [getCount_bump_self]
      simp
      omega
    · rw [getCount_bump_ne _ _ _ h]
      simp [h]

theorem keys_bump {α : Type} [DecidableEq α] (m : List (α × Nat)) (k : α) :
    (bump m k).map Prod.fst = addIfAbsent (m.map Prod.fst) k := by
  induction m with
  | nil => simp [bump, addIfAbsent]
  | cons e rest ih =>
    obtain ⟨a, v⟩ := e
    by_cases h : a = k
    · subst h
      simp [bump, addIfAbsent]
    · have hk : k ≠ a := fun hk => h hk.symm
      simp only [bump, if_neg h, List.map_cons, ih, addIfAbsent]
      by_cases hm : k ∈ rest.map Prod.fst <;>
        simp [hm, hk, List.mem_cons]

theorem keys_foldl_bump {α : Type} [DecidableEq α]
    (l : List α) (m : List (α × Nat)) :
    (l.foldl bump m).map Prod.fst = l.foldl addIfAbsent (m.map Prod.fst) := by
  induction l generalizing m with
  | nil => simp
  | cons x xs ih => simp only [List.foldl_cons, ih, keys_bump]

theorem mem_foldl_addIfAbsent {α : Type} [DecidableEq α]
    (l : List α) (ks : List α) (a : α) (h : a ∈ l.foldl addIfAbsent ks) :
    a ∈ ks ∨ a ∈ l := by
  induction l generalizing ks with
  | nil => exact Or.inl h
  | cons x xs ih =>
    rcases ih (addIfAbsent ks x) h with h' | h'
    · unfold addIfAbsent at h'
      split at h'
      · exact Or.inl h'
      · rcases List.mem_append.mp h' with h'' | h''
        · exact Or.inl h''
        · simp only [List.mem_singleton] at h''
          exact Or.inr (h'' ▸ List.mem_cons_self x xs)
    · exact Or.inr (List.mem_cons_of_mem x h')

theorem nodup_foldl_addIfAbsent {α : Type} [DecidableEq α]
    (l : List α) (ks : List α) (h : ks.Nodup) :
    (l.foldl addIfAbsent ks).Nodup := by
  induction l generalizing ks with
  | nil => exact h
  | cons x xs ih =>
    refine ih (addIfAbsent ks x) ?_
    unfold addIfAbsent
    split
    · exact h
    · simp [List.nodup_append, h, *]

theorem getCount_eq_of_mem {α : Type} [DecidableEq α]
    (m : List (α × Nat)) (k : α) (v : Nat) (hm : (k, v) ∈ m)
    (hnd : (m.map Prod.fst).Nodup) : getCount m k = v := by
  induction m with
  | nil => cases hm
  | cons e rest ih =>
    obtain ⟨a, w⟩ := e
    simp only [List.map_cons, List.nodup_cons] at hnd
    rcases List.mem_cons.mp hm with h | h
    · injection h with h1 h2
      subst h1; subst h2
      simp [getCount]
    · have hk : a ≠ k := by
        intro hak
        subst hak
        exact hnd.1 (List.mem_map.mpr ⟨(a, v), h, rfl⟩)
      simp only [getCount, if_neg hk]
      exact ih h hnd.2

theorem pyInsertDesc_perm {α : Type} (key : α → Nat) (x : α) (l : List α) :
    List.Perm (pyInsertDesc key x l) (x :: l) := by
  induction l with
  | nil => exact List.Perm.refl _
  | cons y ys ih =>
    simp only [pyInsertDesc]
    split
    · exact List.Perm.refl _
    · exact (ih.cons y).trans (List.Perm.swap x y ys)

theorem pySortDesc_perm {α : Type} (key : α → Nat) (l : List α) :
    List.Perm (pySortDesc key l) l := by
  suffices h : ∀ (l acc : List α),
      List.Perm (l.foldl (fun acc x => pyInsertDesc key x acc) acc) (acc ++ l) by
    simpa using h l []
  intro l
  induction l with
  | nil => simp
  | cons x xs ih =>
    intro acc
    simp only [List.foldl_cons]
    refine (ih (pyInsertDesc key x acc)).trans ?_
    refine (((pyInsertDesc_perm key x acc).append_right xs).trans ?_)
    exact List.perm_middle.symm

theorem pyInsertDesc_pairwise {α : Type} (key : α → Nat) (x : α) (l : List α)
    (h : l.Pairwise (fun a b => key b ≤ key a)) :
    (pyInsertDesc key x l).Pairwise (fun a b => key b ≤ key a) := by
  induction l with
  | nil => simp [pyInsertDesc]
  | cons y ys ih =>
    rw [List.pairwise_cons] at h
    obtain ⟨hy, hys⟩ := h
    simp only [pyInsertDesc]
    split
    · rename_i hlt
      refine List.Pairwise.cons ?_ (List.Pairwise.cons hy hys)
      intro z hz
      rcases List.mem_cons.mp hz with h' | h'
      · exact h' ▸ Nat.le_of_lt hlt
      · exact Nat.le_trans (hy z h') (Nat.le_of_lt hlt)
    · rename_i hge
      refine List.Pairwise.cons ?_ (ih hys)
      intro z hz
      rcases List.mem_cons.mp ((pyInsertDesc_perm key x ys).mem_iff.mp hz) with h' | h'
      · exact h' ▸ Nat.le_of_not_lt hge
      · exact hy z h'

theorem pySortDesc_pairwise {α : Type} (key : α → Nat) (l : List α) :
    (pySortDesc key l).Pairwise (fun a b => key b ≤ key a) := by
  suffices h : ∀ (l acc : List α),
      acc.Pairwise (fun a b => key b ≤ key a) →
      (l.foldl (fun acc x => pyInsertDesc key x acc) acc).Pairwise
        (fun a b => key b ≤ key a) by
    exact h l [] (List.Pairwise.nil)
  intro l
  induction l with
  | nil => intro acc h; exact h
  | cons x xs ih =>
    intro acc h
    exact ih _ (pyInsertDesc_pairwise key x acc h)

theorem pyInsertDesc_filter {α : Type} (key : α → Nat) (c : Nat) (x : α)
    (l : List α) (h : l.Pairwise (fun a b => key b ≤ key a)) :
    (pyInsertDesc key x l).filter (fun y => decide (key y = c)) =
      if key x = c then
        l.filter (fun y => decide (key y = c)) ++ [x]
      else l.filter (fun y => decide (key y = c)) := by
  induction l with
  | nil =>
    simp only [pyInsertDesc, List.filter]
    by_cases hx : key x = c <;> simp [hx]
  | cons y ys ih =>
    rw [List.pairwise_cons] at h
    obtain ⟨hy, hys⟩ := h
    simp only [pyInsertDesc]
    split
    · rename_i hlt
      by_cases hx : key x = c
      · have hnil : (y :: ys).filter (fun z => decide (key z = c)) = [] := by
          rw [List.filter_eq_nil_iff]
          intro a ha
          have : key a ≤ key y := by
            rcases List.mem_cons.mp ha with h' | h'
            · exact h' ▸ Nat.le_refl _
            · exact hy a h'
          simp only [decide_eq_true_eq]
          omega
        simp [hx, hnil, List.filter_cons]
      · by_cases hyc : key y = c <;> simp [hx, hyc, List.filter_cons]
    · rename_i hge
      by_cases hyc : key y = c <;> by_cases hx : key x = c <;>
        simp [List.filter_cons, hyc, hx, ih hys]

theorem pySortDesc_filter {α : Type} (key : α → Nat) (c : Nat) (l : List α) :
    (pySortDesc key l).filter (fun y => decide (key y = c)) =
      l.filter (fun y => decide (key y = c)) := by
  suffices h : ∀ (l acc : List α),
      acc.Pairwise (fun a b => key b ≤ key a) →
      (l.foldl (fun acc x => pyInsertDesc key x acc) acc).filter
          (fun y => decide (key y = c)) =
        acc.filter (fun y => decide (key y = c)) ++
          l.filter (fun y => decide (key y = c)) by
    simpa using h l [] List.Pairwise.nil
  intro l
  induction l with
  | nil => intro acc _; simp
  | cons x xs ih =>
    intro acc hacc
    simp only [List.foldl_cons]
    rw [ih _ (pyInsertDesc_pairwise key x acc hacc),
        pyInsertDesc_filter key c x acc hacc, List.filter_cons]
    by_cases hx : key x = c <;> simp [hx]

/-- A frame carrying none of the four transport layers. -/
def frameOther : Frame :=
  { now := 0, len := 42, summary := "other", ip := none,
    tcp := none, udp := none, icmp := none, arp := none }

/-- A TCP SYN frame to port 443 from a private address. -/
def frameTCP443 : Frame :=
  { now := 1, len := 60, summary := "TCP 51000 > 443"
    ip := some ⟨"192.168.0.2", "93.184.216.34", 6, 64, 4⟩
    tcp := some ⟨51000, 443, "S", 0, 0, 8192⟩
    udp := none, icmp := none, arp := none }

/-- C2 — For every frame processed by the classifier, the produced
PacketRecord has at most one of the transport variants
{tcp, udp, icmp, arp} populated; its `type` is derived deterministically
from which layer is present, in the fixed priority order
TCP > UDP > ICMP > ARP > Other; each populated variant forces the
matching `type` and conversely; and a record with no populated variant
has type `Other`. -/
theorem classifier_single_variant (f : Frame) :
    populatedVariants (classify_packet f) ≤ 1 ∧
    (classify_packet f).type =
      (if f.tcp.isSome then "TCP"
       else if f.udp.isSome then "UDP"
       else if f.icmp.isSome then "ICMP"
       else if f.arp.isSome then "ARP"
       else "Other") ∧
    ((classify_packet f).tcp.isSome ↔ (classify_packet f).type = "TCP") ∧
    ((classify_packet f).udp.isSome ↔ (classify_packet f).type = "UDP") ∧
    ((classify_packet f).icmp.isSome ↔ (classify_packet f).type = "ICMP") ∧
    ((classify_packet f).arp.isSome ↔ (classify_packet f).type = "ARP") ∧
    (((classify_packet f).tcp = none ∧ (classify_packet f).udp = none ∧
      (classify_packet f).icmp = none ∧ (classify_packet f).arp = none) →
      (classify_packet f).type = "Other") := by
  obtain ⟨now, len, summary, ip, tcp, udp, icmp, arp⟩ := f
  cases tcp <;> cases udp <;> cases icmp <;> cases arp <;>
    simp [classify_packet, populatedVariants]

/-- Witness for C2 at a concrete frame with no transport layer. -/
theorem classifier_single_variant_witness :
    (classify_packet frameOther).type = "Other" :=
  (classifier_single_variant frameOther).2.2.2.2.2.2 ⟨rfl, rfl, rfl, rfl⟩

/-- C4 — On the empty capture log, `GET /capture/statistics` raises no
exception and returns `total_packets = 0` with the empty/zero
sub-structure for every field of the non-empty response (app.py
1070-1082). -/
theorem statistics_empty_log :
    get_capture_statistics [] =
      { total_packets := 0
        protocol_distribution := []
        port_distribution := none
        ip_statistics := none
        packet_size_stats := none
        time_analysis := none
        top_talkers := []
        security_analysis := none
        tcp_flags := []
        anomaly_detection := none
        suspicious_ips := [] } := rfl

/-- C9 — A completed (non-skipped, non-raising) invocation of
`packet_callback` returns `True` exactly when the capture log holds at
least 1000 records after the append; the callback takes no
`target_count` at all (app.py 330-331 checks only the log length), so
the 1000-record self-stop holds for every requested count. -/
theorem callback_stop_at_capacity (bufs : CaptureBuffers) (f : Frame) :
    (packet_callback false false bufs f).2 = true ↔
      1000 ≤ (packet_callback false false bufs f).1.capture_packets.length := by
  simp [packet_callback]

/-- C5 — Whatever the worker body does and however it exits — normal
completion, `KeyboardInterrupt`, or any other exception — the `finally`
of `capture_packets_thread` always resets `is_capturing`, clears
`stop_capture_flag` and releases the sniffer handle linking the worker
to the session (app.py 527-537). -/
theorem worker_cleanup_always (g : CaptureGlobals)
    (body : CaptureGlobals → CaptureGlobals) (outcome : WorkerOutcome) :
    (capture_packets_thread g body outcome).is_capturing = false ∧
    (capture_packets_thread g body outcome).stop_capture_flag = false ∧
    (capture_packets_thread g body outcome).capture_sniffer = none := by
  cases outcome <;> simp [capture_packets_thread]

/-- A state with a capture running: session `20250101_120000`, one
record in the log. -/
def gRunning : CaptureGlobals :=
  { is_capturing := true, stop_capture_flag := false, capture_sniffer := some 1
    capture_session_id := some "20250101_120000"
    bufs := ⟨[classify_packet frameTCP443], [frameTCP443]⟩ }

/-- An idle state with empty buffers. -/
def gIdle : CaptureGlobals :=
  { is_capturing := false, stop_capture_flag := false, capture_sniffer := none
    capture_session_id := none, bufs := ⟨[], []⟩ }

/-- C3 counterexample — with a session running, `POST /capture/start`
does answer `already_running` without touching the state, but the
response does NOT carry the current session's `session_id` or
`target_count`: the early return of app.py 997 sends only `message` and
`status`, so the claim that the response carries the current session
info is false. -/
theorem start_already_running_cex :
    gRunning.is_capturing = true ∧
    gRunning.capture_session_id = some "20250101_120000" ∧
    (start_capture gRunning (.dict none none) "20250102_000000").response.status
      = "already_running" ∧
    (start_capture gRunning (.dict none none) "20250102_000000").response.session_id
      = none ∧
    (start_capture gRunning (.dict none none) "20250102_000000").response.target_count
      = none :=
  ⟨rfl, rfl, rfl, rfl, rfl⟩

/-- C3 as amended — if a session is Running, `POST /capture/start` is an
idempotent no-op answering `already_running`: the globals (both logs,
the session id, every flag) are unchanged and no worker is spawned; the
response however carries only the message and status, not the current
session's `session_id`/`target_count`. -/
theorem start_already_running_noop (g : CaptureGlobals) (body : StartBody)
    (new_id : String) (h : g.is_capturing = true) :
    (start_capture g body new_id).globals = g ∧
    (start_capture g body new_id).spawned = none ∧
    (start_capture g body new_id).response.status = "already_running" ∧
    (start_capture g body new_id).response.session_id = none ∧
    (start_capture g body new_id).response.target_count = none := by
  simp [start_capture, h]

/-- Witness for the amended C3 at a concrete running state. -/
theorem start_already_running_noop_witness :
    (start_capture gRunning StartBody.invalid "20250102_000000").globals = gRunning ∧
    (start_capture gRunning StartBody.invalid "20250102_000000").spawned = none :=
  ⟨(start_already_running_noop gRunning StartBody.invalid "20250102_000000" rfl).1,
   (start_already_running_noop gRunning StartBody.invalid "20250102_000000" rfl).2.1⟩

/-- C10 — When the request body fails to parse (or is absent), is not a
JSON object, or is an object without a `count` key, an idle
`start_capture` reports `target_count = 100` and spawns the sniffer
thread with `packet_count = 100` (app.py 986-992, 1006, 1011-1016). -/
theorem start_default_count (g : CaptureGlobals) (new_id : String)
    (i : Option String) (h : g.is_capturing = false) :
    ((start_capture g .invalid new_id).response.status = "started" ∧
     (start_capture g .invalid new_id).response.target_count = some 100 ∧
     (start_capture g .invalid new_id).spawned = some (none, 100)) ∧
    ((start_capture g .nonDict new_id).response.target_count = some 100 ∧
     (start_capture g .nonDict new_id).spawned = some (none, 100)) ∧
    ((start_capture g (.dict i none) new_id).response.target_count = some 100 ∧
     (start_capture g (.dict i none) new_id).spawned = some (i, 100)) := by
  simp [start_capture, h]

/-- Witness for C10 at the concrete idle state. -/
theorem start_default_count_witness :
    (start_capture gIdle StartBody.invalid "20250102_000000").response.target_count
      = some 100 :=
  ((start_default_count gIdle "20250102_000000" none rfl).1).2.1

theorem pushCap_length_le (log : List PacketInfo) (r : PacketInfo)
    (h : log.length ≤ 1000) : (pushCap log r).length ≤ 1000 := by
  unfold pushCap
  split
  all_goals
    simp only [List.length_tail, List.length_append, List.length_cons,
      List.length_nil] at *
  all_goals omega

theorem pushCap_eq_tailCap (log : List PacketInfo) (r : PacketInfo)
    (h : log.length ≤ 1000) : pushCap log r = tailCap (log ++ [r]) := by
  unfold pushCap tailCap
  split
  · rename_i h1
    have hl : (log ++ [r]).length - 1000 = 1 := by
      simp only [List.length_append, List.length_cons, List.length_nil] at h1 ⊢
      omega
    rw [hl, ← List.drop_one]
  · rename_i h1
    have hl : (log ++ [r]).length - 1000 = 0 := by
      simp only [List.length_append, List.length_cons, List.length_nil] at h1 ⊢
      omega
    rw [hl, List.drop_zero]

theorem tailCap_tailCap_append (a b : List PacketInfo) :
    tailCap (tailCap a ++ b) = tailCap (a ++ b) := by
  unfold tailCap
  have hk : a.length - 1000 ≤ a.length := Nat.sub_le _ _
  have h1 : List.drop (a.length - 1000) a ++ b
      = List.drop (a.length - 1000) (a ++ b) :=
    (List.drop_append_of_le_length hk).symm
  rw [h1]
  rw [List.drop_drop]
  simp only [List.length_drop, List.length_append]
  have h2 : a.length - 1000 + (a.length + b.length - (a.length - 1000) - 1000)
      = a.length + b.length - 1000 := by omega
  rw [h2]

theorem foldl_pushCap_eq (rs : List PacketInfo) :
    ∀ log : List PacketInfo, log.length ≤ 1000 →
      rs.foldl pushCap log = tailCap (log ++ rs) := by
  induction rs with
  | nil =>
    intro log h
    simp [tailCap, Nat.sub_eq_zero_of_le h]
  | cons r rs ih =>
    intro log h
    simp only [List.foldl_cons]
    rw [ih (pushCap log r) (pushCap_length_le log r h),
        pushCap_eq_tailCap log r h, tailCap_tailCap_append]
    simp

theorem runCapture_aux (events : List CallbackEvent) :
    ∀ b : CaptureBuffers,
      (events.foldl
        (fun bb e => (packet_callback e.stop_flag e.frame_error bb e.frame).1)
        b).capture_packets
      = ((events.filter (fun e => !e.stop_flag && !e.frame_error)).map
          (fun e => classify_packet e.frame)).foldl pushCap b.capture_packets := by
  induction events with
  | nil => intro b; rfl
  | cons e es ih =>
    intro b
    obtain ⟨sf, fe, f⟩ := e
    cases sf <;> cases fe <;>
      simp only [List.foldl_cons, List.filter_cons, List.map_cons] <;>
      rw [ih] <;>
      simp [packet_callback]

theorem runCapture_log (events : List CallbackEvent) :
    (runCapture events).capture_packets = tailCap (processedRecords events) := by
  unfold runCapture processedRecords
  rw [runCapture_aux]
  exact foldl_pushCap_eq _ [] (by simp)

/-- 1000 identical records: a capture log at capacity. -/
def bufs1000 : CaptureBuffers :=
  ⟨List.replicate 1000 (classify_packet frameOther), []⟩

/-- C1 — After every completed run of the capture callback the capture
log holds at most 1000 records; the retained records are exactly the
order-preserving 1000-suffix of the capture order (so FIFO: when an
append would exceed 1000, exactly the oldest record is evicted); one
append onto a full log drops exactly index 0; and when the wall clock is
monotone over the callback invocations, retained timestamps are
pairwise non-decreasing. -/
theorem capture_log_fifo (events : List CallbackEvent) :
    (runCapture events).capture_packets.length ≤ 1000 ∧
    List.IsSuffix (runCapture events).capture_packets (processedRecords events) ∧
    (runCapture events).capture_packets
      = (processedRecords events).drop ((processedRecords events).length - 1000) ∧
    (∀ (bufs : CaptureBuffers) (f : Frame),
        bufs.capture_packets.length = 1000 →
        (packet_callback false false bufs f).1.capture_packets
          = bufs.capture_packets.tail ++ [classify_packet f]) ∧
    ((events.map (fun e => e.frame.now)).Pairwise (fun a b => a ≤ b) →
      (runCapture events).capture_packets.Pairwise
        (fun a b => a.timestamp ≤ b.timestamp)) := by
  refine ⟨?_, ?_, ?_, ?_, ?_⟩
  · rw [runCapture_log]
    unfold tailCap
    simp only [List.length_drop]
    omega
  · rw [runCapture_log]
    exact List.drop_suffix _ _
  · rw [runCapture_log]; rfl
  · intro bufs f h
    simp only [packet_callback, Bool.false_eq_true, if_false, pushCap]
    have h1 : 1000 < (bufs.capture_packets ++ [classify_packet f]).length := by
      simp [h]
    rw [if_pos h1]
    rcases hlog : bufs.capture_packets with _ | ⟨a, t⟩
    · rw [hlog] at h; simp at h
    · simp
  · intro hsort
    rw [runCapture_log]
    have h1 : events.Pairwise (fun a b => a.frame.now ≤ b.frame.now) :=
      List.pairwise_map.mp hsort
    have h2 : (events.filter (fun e => !e.stop_flag && !e.frame_error)).Pairwise
        (fun a b => a.frame.now ≤ b.frame.now) :=
      List.Pairwise.sublist (List.filter_sublist events) h1
    have h3 : (processedRecords events).Pairwise
        (fun a b => a.timestamp ≤ b.timestamp) := by
      unfold processedRecords
      exact List.pairwise_map.mpr (h2.imp (fun h => h))
    exact List.Pairwise.sublist (List.IsSuffix.sublist (List.drop_suffix _ _)) h3

/-- Witness for C1: one append onto a full concrete log evicts exactly
the head, and a concrete two-frame capture with a monotone clock keeps
its timestamps sorted. -/
theorem capture_log_fifo_witness :
    (packet_callback false false bufs1000 frameTCP443).1.capture_packets
        = bufs1000.capture_packets.tail ++ [classify_packet frameTCP443] ∧
    (runCapture [⟨false, false, frameOther⟩, ⟨false, false, frameTCP443⟩]).capture_packets.Pairwise
        (fun a b => a.timestamp ≤ b.timestamp) :=
  ⟨(capture_log_fifo []).2.2.2.1 bufs1000 frameTCP443
     (by simp only [bufs1000, List.length_replicate]),
   (capture_log_fifo [⟨false, false, frameOther⟩, ⟨false, false, frameTCP443⟩]).2.2.2.2
     (by simp [frameOther, frameTCP443])⟩

/-- Spec-side SYN-flood condition (§4.4): a packet counts towards source
`ip` exactly when its TCP flag string is exactly `"S"` — a flag string
merely containing `S` among others does not count — and its source IP is
`ip`. -/
def synMatch (ip : String) (p : PacketInfo) : Bool :=
  match p.tcp, p.ip with
  | some t, some i => decide (t.flags = "S") && decide (i.src = ip)
  | _, _ => false

/-- Spec-side per-source-IP count of SYN-only packets. -/
def countSynOnly (packets : List PacketInfo) (ip : String) : Nat :=
  packets.countP (synMatch ip)

/-- The source IP the syn-flood tally bumps for one packet, if any. -/
def synSrcOf (p : PacketInfo) : Option String :=
  match p.tcp with
  | some t =>
      if t.flags = "S" then
        match p.ip with
        | some i => if i.src ≠ "" then some i.src else none
        | none => none
      else none
  | none => none

/-- The sequence of source IPs the syn-flood tally bumps, in packet
order. -/
def synSrcs (packets : List PacketInfo) : List String :=
  packets.filterMap synSrcOf

theorem syn_counts_eq_foldl (packets : List PacketInfo) :
    syn_counts_of packets = (synSrcs packets).foldl bump [] := by
  suffices h : ∀ m : List (String × Nat),
      packets.foldl (fun m p =>
        match p.tcp with
        | some t =>
            if t.flags = "S" then
              match p.ip with
              | some i => if i.src ≠ "" then bump m i.src else m
              | none => m
            else m
        | none => m) m = (synSrcs packets).foldl bump m from h []
  induction packets with
  | nil => intro m; rfl
  | cons p ps ih =>
    intro m
    simp only [List.foldl_cons, synSrcs, List.filterMap_cons]
    rcases ht : p.tcp with _ | t
    · simpa [synSrcOf, ht] using ih m
    · by_cases hf : t.flags = "S"
      · rcases hi : p.ip with _ | i
        · simpa [synSrcOf, ht, hf, hi] using ih m
        · by_cases hs : i.src ≠ ""
          · simpa [synSrcOf, ht, hf, hi, hs] using ih (bump m i.src)
          · simpa [synSrcOf, ht, hf, hi, hs] using ih m
      · simpa [synSrcOf, ht, hf] using ih m

theorem synSrcs_countP (packets : List PacketInfo) (ip : String)
    (h : ip ≠ "") :
    (synSrcs packets).countP (fun x => decide (x = ip))
      = countSynOnly packets ip := by
  induction packets with
  | nil => rfl
  | cons p ps ih =>
    simp only [synSrcs, List.filterMap_cons, countSynOnly] at ih ⊢
    have hne0 : ¬ ("" = ip) := fun hc => h hc.symm
    rcases ht : p.tcp with _ | t
    · simp [synSrcOf, synMatch, ht, ih, List.countP_cons]
    · by_cases hf : t.flags = "S"
      · rcases hi : p.ip with _ | i
        · simp [synSrcOf, synMatch, ht, hf, hi, ih, List.countP_cons]
        · by_cases hs : i.src = ""
          · simp [synSrcOf, synMatch, ht, hf, hi, hs, hne0, ih, List.countP_cons]
          · simp [synSrcOf, synMatch, ht, hf, hi, hs, ih, List.countP_cons]
      · rcases hi : p.ip with _ | i <;>
          simp [synSrcOf, synMatch, ht, hf, hi, ih, List.countP_cons]

theorem getCount_syn_counts (packets : List PacketInfo) (ip : String)
    (h : ip ≠ "") :
    getCount (syn_counts_of packets) ip = countSynOnly packets ip := by
  rw [syn_counts_eq_foldl, getCount_foldl_bump]
  simpa [getCount] using synSrcs_countP packets ip h

theorem synSrcs_ne_empty (packets : List PacketInfo) (s : String)
    (hs : s ∈ synSrcs packets) : s ≠ "" := by
  obtain ⟨p, _, hp⟩ := List.mem_filterMap.mp hs
  rcases ht : p.tcp with _ | t
  · simp [synSrcOf, ht] at hp
  · by_cases hf : t.flags = "S"
    · rcases hi : p.ip with _ | i
      · simp [synSrcOf, ht, hf, hi] at hp
      · by_cases hsrc : i.src = ""
        · simp [synSrcOf, ht, hf, hi, hsrc] at hp
        · simp only [synSrcOf, ht, hf, hi, if_pos hf, ne_eq, hsrc,
            not_false_eq_true, if_pos, Option.some.injEq] at hp
          intro hcon
          exact hsrc (by rw [hp, hcon])
    · simp [synSrcOf, ht, hf] at hp

theorem keys_syn_counts_nodup (packets : List PacketInfo) :
    ((syn_counts_of packets).map Prod.fst).Nodup := by
  rw [syn_counts_eq_foldl, keys_foldl_bump]
  exact nodup_foldl_addIfAbsent _ _ List.nodup_nil

theorem keys_syn_counts_mem (packets : List PacketInfo) (k : String)
    (hk : k ∈ (syn_counts_of packets).map Prod.fst) : k ∈ synSrcs packets := by
  rw [syn_counts_eq_foldl, keys_foldl_bump] at hk
  rcases mem_foldl_addIfAbsent _ _ _ hk with h | h
  · cases h
  · exact h

theorem getCount_eq_zero_of_not_mem {α : Type} [DecidableEq α]
    (m : List (α × Nat)) (k : α) (h : k ∉ m.map Prod.fst) :
    getCount m k = 0 := by
  induction m with
  | nil => rfl
  | cons e rest ih =>
    obtain ⟨a, v⟩ := e
    simp only [List.map_cons, List.mem_cons, not_or] at h
    have hak : ¬ a = k := fun hc => h.1 hc.symm
    simp only [getCount, if_neg hak]
    exact ih h.2

theorem countP_synFindings_not_mem (m : List (String × Nat)) (ip : String)
    (h : ip ∉ m.map Prod.fst) :
    ((m.filterMap (fun e =>
        if 50 < e.2 then some (⟨e.1, e.2, "high"⟩ : SynFloodFinding) else none)).countP
      (fun f => decide (f.ip = ip))) = 0 := by
  induction m with
  | nil => rfl
  | cons e rest ih =>
    obtain ⟨a, v⟩ := e
    simp only [List.map_cons, List.mem_cons, not_or] at h
    have hne : ¬ ((⟨a, v, "high"⟩ : SynFloodFinding).ip = ip) :=
      fun hc => h.1 hc.symm
    by_cases hv : 50 < v
    · simp only [List.filterMap_cons, hv, if_true, List.countP_cons]
      simpa [hne] using ih h.2
    · simp only [List.filterMap_cons, hv, if_false]
      exact ih h.2

theorem countP_synFindings (m : List (String × Nat)) (ip : String)
    (hnd : (m.map Prod.fst).Nodup) :
    ((m.filterMap (fun e =>
        if 50 < e.2 then some (⟨e.1, e.2, "high"⟩ : SynFloodFinding) else none)).countP
      (fun f => decide (f.ip = ip)))
      = if 50 < getCount m ip then 1 else 0 := by
  induction m with
  | nil => simp [getCount]
  | cons e rest ih =>
    obtain ⟨a, v⟩ := e
    simp only [List.map_cons, List.nodup_cons] at hnd
    by_cases ha : a = ip
    · subst ha
      have hz : ((rest.filterMap (fun e =>
          if 50 < e.2 then some (⟨e.1, e.2, "high"⟩ : SynFloodFinding) else none)).countP
            (fun f => decide (f.ip = a))) = 0 :=
        countP_synFindings_not_mem rest a hnd.1
      have hg : getCount ((a, v) :: rest) a = v := by simp [getCount]
      rw [hg]
      by_cases hv : 50 < v
      · simp only [List.filterMap_cons, hv, if_true, List.countP_cons, hz]
        simp
      · simp only [List.filterMap_cons, hv, if_false]
        exact hz
    · have hq : getCount ((a, v) :: rest) ip = getCount rest ip := by
        simp [getCount, ha]
      rw [hq]
      have hne : ¬ ((⟨a, v, "high"⟩ : SynFloodFinding).ip = ip) := ha
      by_cases hv : 50 < v
      · simp only [List.filterMap_cons, hv, if_true, List.countP_cons]
        simpa [hne] using ih hnd.2
      · simp only [List.filterMap_cons, hv, if_false]
        exact ih hnd.2

/-- A SYN-only frame from source IP `B`. -/
def frameSynB : Frame :=
  { now := 2, len := 60, summary := "SYN"
    ip := some ⟨"B", "A", 6, 64, 4⟩
    tcp := some ⟨1234, 80, "S", 0, 0, 8192⟩
    udp := none, icmp := none, arp := none }

/-- C6 — The anomaly detector counts, per source IP, exactly the packets
whose TCP flags string is exactly `"S"`; it emits exactly one
`syn_flood` finding of severity `high` (carrying that count) for each
source IP whose count strictly exceeds 50 and none otherwise; on 60
SYN-only records from `B` it emits exactly `[{ip := B, syn_count := 60,
severity := high}]`, and on exactly 50 it emits nothing. -/
theorem syn_flood_spec (packets : List PacketInfo)
    (s d : List (String × Nat)) (pc : List (Nat × Nat)) :
    (∀ f ∈ (detect_anomalies packets s d pc).syn_flood,
        f.severity = "high" ∧ 50 < f.syn_count ∧ f.ip ≠ "" ∧
        f.syn_count = countSynOnly packets f.ip) ∧
    (∀ ip : String, ip ≠ "" →
        ((detect_anomalies packets s d pc).syn_flood.countP
            (fun f => decide (f.ip = ip)))
          = if 50 < countSynOnly packets ip then 1 else 0) ∧
    (detect_anomalies (List.replicate 60 (classify_packet frameSynB)) [] [] []).syn_flood
      = [⟨"B", 60, "high"⟩] ∧
    (detect_anomalies (List.replicate 50 (classify_packet frameSynB)) [] [] []).syn_flood
      = [] := by
  have hflood : (detect_anomalies packets s d pc).syn_flood
      = (syn_counts_of packets).filterMap (fun e =>
          if 50 < e.2 then some (⟨e.1, e.2, "high"⟩ : SynFloodFinding) else none) := rfl
  refine ⟨?_, ?_, ?_, ?_⟩
  · intro f hf
    rw [hflood] at hf
    obtain ⟨⟨k, v⟩, hmem, heq⟩ := List.mem_filterMap.mp hf
    by_cases hv : 50 < v
    · rw [if_pos hv] at heq
      injection heq with heq
      subst heq
      have hk : k ∈ (syn_counts_of packets).map Prod.fst :=
        List.mem_map.mpr ⟨(k, v), hmem, rfl⟩
      have hkne : k ≠ "" := synSrcs_ne_empty packets k (keys_syn_counts_mem packets k hk)
      have hcount : getCount (syn_counts_of packets) k = v :=
        getCount_eq_of_mem _ k v hmem (keys_syn_counts_nodup packets)
      exact ⟨rfl, hv, hkne, by rw [← getCount_syn_counts packets k hkne, hcount]⟩
    · rw [if_neg hv] at heq
      cases heq
  · intro ip hip
    rw [hflood, countP_synFindings _ ip (keys_syn_counts_nodup packets),
        getCount_syn_counts packets ip hip]
  · rfl
  · rfl

/-- Witness for C6: the per-IP count rule applied at source `B` over the
concrete 60-record log. -/
theorem syn_flood_spec_witness :
    ((detect_anomalies (List.replicate 60 (classify_packet frameSynB)) [] [] []).syn_flood.countP
        (fun f => decide (f.ip = "B")))
      = if 50 < countSynOnly (List.replicate 60 (classify_packet frameSynB)) "B"
        then 1 else 0 :=
  (syn_flood_spec (List.replicate 60 (classify_packet frameSynB)) [] [] []).2.1 "B"
    (by decide)

/-- The port slots one record contributes to the port tally, in tally
order: for a record with a `tcp` key its truthy source then destination
port, `elif` for a record with a `udp` key likewise; a port 0 is falsy
and contributes nothing. -/
def slotsOfPacket (p : PacketInfo) : List Nat :=
  match p.tcp with
  | some t =>
      (if t.sport ≠ 0 then [t.sport] else []) ++
      (if t.dport ≠ 0 then [t.dport] else [])
  | none =>
    match p.udp with
    | some u =>
        (if u.sport ≠ 0 then [u.sport] else []) ++
        (if u.dport ≠ 0 then [u.dport] else [])
    | none => []

/-- The full sequence of tallied port slots of a log, in tally order. -/
def portSlots (packets : List PacketInfo) : List Nat :=
  (packets.map slotsOfPacket).flatten

theorem portStep_eq_foldl (m : List (Nat × Nat)) (p : PacketInfo) :
    portStep m p = (slotsOfPacket p).foldl bump m := by
  rcases ht : p.tcp with _ | t
  · rcases hu : p.udp with _ | u
    · simp [portStep, slotsOfPacket, ht, hu]
    · by_cases hs : u.sport ≠ 0 <;> by_cases hd : u.dport ≠ 0 <;>
        simp [portStep, slotsOfPacket, ht, hu, hs, hd]
  · by_cases hs : t.sport ≠ 0 <;> by_cases hd : t.dport ≠ 0 <;>
      simp [portStep, slotsOfPacket, ht, hs, hd]

theorem port_counts_eq_foldl (packets : List PacketInfo) :
    port_counts_of packets = (portSlots packets).foldl bump [] := by
  suffices h : ∀ m : List (Nat × Nat),
      packets.foldl portStep m = (portSlots packets).foldl bump m from h []
  induction packets with
  | nil => intro m; rfl
  | cons p ps ih =>
    intro m
    simp only [List.foldl_cons, portSlots, List.map_cons, List.flatten_cons,
      List.foldl_append, portStep_eq_foldl]
    exact ih _

theorem getCount_port_counts (packets : List PacketInfo) (q : Nat) :
    getCount (port_counts_of packets) q
      = (portSlots packets).countP (fun x => decide (x = q)) := by
  rw [port_counts_eq_foldl, getCount_foldl_bump]
  simp [getCount]

theorem keys_port_counts (packets : List PacketInfo) :
    (port_counts_of packets).map Prod.fst = dedupKeepFirst (portSlots packets) := by
  rw [port_counts_eq_foldl, keys_foldl_bump]
  rfl

/-- A TCP record whose source port is 0 (a crafted but valid frame). -/
def frameTCPZero : Frame :=
  { now := 3, len := 60, summary := "TCP 0 > 80"
    ip := some ⟨"1.2.3.4", "5.6.7.8", 6, 64, 4⟩
    tcp := some ⟨0, 80, "S", 0, 0, 512⟩
    udp := none, icmp := none, arp := none }

/-- C7 counterexample — the claim says the port distribution tallies
BOTH the source and the destination port of every TCP record, but
`if sport:` (app.py 1096) skips the falsy port 0: for the one-record log
whose TCP source port is 0 the tally holds only port 80, and port 0 has
count 0 even though it occurs as the record's source port. -/
theorem port_distribution_cex :
    (classify_packet frameTCPZero).tcp = some ⟨0, 80, "S", 0, 0, 512⟩ ∧
    port_counts_of [classify_packet frameTCPZero] = [(80, 1)] ∧
    getCount (port_counts_of [classify_packet frameTCPZero]) 0 = 0 :=
  ⟨rfl, rfl, rfl⟩

/-- C7 as amended — the port distribution tallies the truthy (nonzero)
source and destination ports of every TCP record and, `elif`, of every
UDP record into one combined frequency map (`getCount` of any port
equals its number of occurrences among the tallied slots, zeros never
being tallied); the map's keys are in first-occurrence order; the
emitted `top_ports` is the stable descending-by-count sort of that map
truncated to 20, so counts are non-increasing and ties stay in
first-occurrence order. -/
theorem port_distribution_spec (packets : List PacketInfo) :
    (∀ q : Nat, getCount (port_counts_of packets) q
        = (portSlots packets).countP (fun x => decide (x = q))) ∧
    ((port_counts_of packets).map Prod.fst
        = dedupKeepFirst (portSlots packets)) ∧
    (pySortDesc (fun e => e.2) (port_counts_of packets)).Pairwise
      (fun a b => b.2 ≤ a.2) ∧
    (∀ c : Nat,
        (pySortDesc (fun e => e.2) (port_counts_of packets)).filter
            (fun e => decide (e.2 = c))
          = (port_counts_of packets).filter (fun e => decide (e.2 = c))) ∧
    top_ports_of packets
      = (pySortDesc (fun e => e.2) (port_counts_of packets)).take 20 ∧
    (top_ports_of packets).length ≤ 20 ∧
    (get_capture_statistics packets).port_distribution
      = (if packets = [] then none else some (top_ports_of packets)) := by
  refine ⟨getCount_port_counts packets, keys_port_counts packets,
    pySortDesc_pairwise _ _, ?_, rfl, ?_, ?_⟩
  · intro c
    exact pySortDesc_filter (fun e => e.2) c (port_counts_of packets)
  · exact List.length_take_le _ _
  · by_cases h : packets = [] <;> simp [get_capture_statistics, h]

/-- A frame with an IP layer only, source `0.0.0.1`. -/
def frameZeroSrc : Frame :=
  { now := 4, len := 50, summary := "ip only"
    ip := some ⟨"0.0.0.1", "1.1.1.1", 6, 64, 4⟩
    tcp := none, udp := none, icmp := none, arp := none }

/-- C8 — Every emitted suspicious-IP entry belongs to an IP observed as
source or destination, carries its summed suspicion score, which is at
least 3 (entries scoring below 3 are never emitted), with severity
`high` for score ≥ 7, `medium` for 5 ≤ score < 7 and `low` for
3 ≤ score < 5; the list is sorted by score descending and holds at most
20 entries; and the statistics endpoint returns exactly this list. -/
theorem suspicious_ips_spec (packets : List PacketInfo)
    (s d : List (String × Nat)) :
    (∀ e ∈ analyze_suspicious_ips packets s d,
        3 ≤ e.suspicion_score ∧
        e.severity = (if 7 ≤ e.suspicion_score then "high"
          else if 5 ≤ e.suspicion_score then "medium" else "low") ∧
        e.suspicion_score = (scoreIP packets s e.ip).1 ∧
        e.ip ∈ all_ips_of packets) ∧
    (analyze_suspicious_ips packets s d).Pairwise
      (fun a b => b.suspicion_score ≤ a.suspicion_score) ∧
    (analyze_suspicious_ips packets s d).length ≤ 20 ∧
    (get_capture_statistics packets).suspicious_ips
      = (if packets = [] then []
         else analyze_suspicious_ips packets (src_ips_of packets) (dst_ips_of packets)) := by
  refine ⟨?_, ?_, ?_, ?_⟩
  · intro e he
    have he1 : e ∈ pySortDesc (fun e => e.suspicion_score)
        ((all_ips_of packets).filterMap (fun ip =>
          let sc := scoreIP packets s ip
          if 3 ≤ sc.1 then
            some { ip := ip
                   suspicion_score := sc.1
                   severity :=
                     if 7 ≤ sc.1 then "high" else if 5 ≤ sc.1 then "medium" else "low"
                   reasons := sc.2
                   packet_count := getCount s ip + getCount d ip
                   is_private := isPrivateIP ip }
          else none)) := List.take_subset _ _ he
    have he2 := (pySortDesc_perm _ _).mem_iff.mp he1
    obtain ⟨ip, hip, heq⟩ := List.mem_filterMap.mp he2
    by_cases hc : 3 ≤ (scoreIP packets s ip).1
    · simp only [hc, if_true] at heq
      injection heq with heq
      subst heq
      exact ⟨hc, rfl, rfl, hip⟩
    · simp only [hc, if_false] at heq
      cases heq
  · exact List.Pairwise.sublist (List.take_sublist _ _)
      (pySortDesc_pairwise _ _)
  · exact List.length_take_le _ _
  · by_cases h : packets = [] <;> simp [get_capture_statistics, h]

/-- Witness for C8: the emitted-entry rule applied to the single entry
produced by a one-record log from source `0.0.0.1`. -/
theorem suspicious_ips_spec_witness :
    3 ≤ (⟨"0.0.0.1", 5, "medium", ["無効なIPアドレス範囲"], 0, false⟩ :
        SuspiciousEntry).suspicion_score ∧
    (⟨"0.0.0.1", 5, "medium", ["無効なIPアドレス範囲"], 0, false⟩ :
        SuspiciousEntry).suspicion_score
      = (scoreIP [classify_packet frameZeroSrc] [] "0.0.0.1").1 := by
  have h := (suspicious_ips_spec [classify_packet frameZeroSrc] [] []).1
    ⟨"0.0.0.1", 5, "medium", ["無効なIPアドレス範囲"], 0, false⟩ (by decide)
  exact ⟨h.1, h.2.2.1⟩

end NetCapture
